import Mathlib

/-!
Shallow embedding of the PLP Python client (`src/sdks/python/src/plp_client/client.py`):
the multi-modal content model and its wire (de)serialization, the prompt entities,
the unified error type `PLPError`, and the client operations `get`/`put`/`delete`.

Python dynamic values on the wire are modelled by a `Json` inductive; Python
exceptions by the `PyError` inductive (`plpError` is the library's own `PLPError`;
`valueError`, `keyError`, `typeError`, `attributeError` are the builtin exceptions
the interpreter raises at the corresponding places).  Dataclass fields use the
declared Python types (`text: str`, `url: str`, `detail: Optional[str]`); a wire
value of a different shape surfaces as `typeError`, the dynamic failure Python
would produce when the ill-typed field is eventually used.
-/

namespace PLP

/-- JSON values as returned by `response.json()` / passed as request bodies.
Objects are ordered association lists, matching Python dict insertion order. -/
inductive Json where
  | null
  | bool (b : Bool)
  | num (n : Int)
  | str (s : String)
  | arr (elems : List Json)
  | obj (fields : List (String × Json))

/-- Lookup of a key in a JSON object field list (first binding wins, as in a
Python dict where keys are unique). -/
def jsonLookup (fields : List (String × Json)) (k : String) : Option Json :=
  (fields.find? (fun p => p.1 = k)).map (fun p => p.2)

/-- Python `str()` of a value, as interpolated into f-strings.  Scalars follow
Python exactly (`None`, `True`, `False`, numbers, the raw string).  Container
rendering is abbreviated: Python would recurse with `repr` quoting of inner
strings; no property checked below depends on the rendering of a container,
only on scalar tags being carried verbatim. -/
def Json.pyStr : Json → String
  | .null => "None"
  | .bool true => "True"
  | .bool false => "False"
  | .num n => toString n
  | .str s => s
  | .arr _ => "[...]"
  | .obj _ => "\x7b...\x7d"

/-- Python `v == "lit"` where `v` is an arbitrary runtime value: true exactly when
`v` is a string equal to the literal (cross-type `==` is `False` in Python). -/
def Json.eqStr : Json → String → Bool
  | .str s, t => s = t
  | _, _ => false

/-- Python exceptions that can escape the client code paths we model. -/
inductive PyError where
  /-- The library's own `PLPError(message, status_code, response)`.  The message
  is a `Json` because `data.get("error", ...)` may hand `PLPError` a non-string. -/
  | plpError (message : Json) (statusCode : Option Nat) (response : Option Json)
  | valueError (message : String)
  | keyError (key : String)
  | typeError (message : String)
  | attributeError (message : String)

/-- Whether an exception is the unified library error type `PLPError`. -/
def PyError.isPLP : PyError → Bool
  | .plpError .. => true
  | _ => false

/-- Key lookup on a JSON value: `none` unless it is an object with the key. -/
def Json.objLookup : Json → String → Option Json
  | .obj fields, k => jsonLookup fields k
  | _, _ => none

-- ===========================================================================
-- Multi-modal Content Types  (client.py lines 15-97)
-- ===========================================================================

/-- `TextContent`: text content part.  The `type` attribute is the constant
`"text"` set by `__init__`, so it is not stored. -/
structure TextContent where
  text : String
deriving DecidableEq, Repr

/-- `ImageUrl`: image URL with optional detail level (`"auto" | "low" | "high"`). -/
structure ImageUrl where
  url : String
  detail : Option String
deriving DecidableEq, Repr

/-- `ImageContent`: image content part; `type` is the constant `"image_url"`. -/
structure ImageContent where
  image_url : ImageUrl
deriving DecidableEq, Repr

/-- `ContentPart = Union[TextContent, ImageContent]`. -/
inductive ContentPart where
  | text (t : TextContent)
  | image (i : ImageContent)
deriving DecidableEq, Repr

/-- The Python `type` attribute of a content part. -/
def ContentPart.pyType : ContentPart → String
  | .text _ => "text"
  | .image _ => "image_url"

/-- `PromptContent = Union[str, List[ContentPart]]`. -/
inductive PromptContent where
  | str (s : String)
  | parts (l : List ContentPart)
deriving DecidableEq, Repr

/-- `TextContent.to_dict`. -/
def TextContent.to_dict (t : TextContent) : Json :=
  .obj [("type", .str "text"), ("text", .str t.text)]

/-- `TextContent.from_dict`: reads `data["text"]` (KeyError when missing); a
non-string wire value would be stored unchecked by Python and is reported as the
dynamic type error its later use would raise. -/
def TextContent.from_dict (data : Json) : Except PyError TextContent :=
  match data with
  | .obj fields =>
      match jsonLookup fields "text" with
      | some (.str s) => .ok ⟨s⟩
      | some _ => .error (.typeError "text is not a string")
      | none => .error (.keyError "text")
  | _ => .error (.typeError "data is not subscriptable")

/-- `ImageUrl.to_dict`: emits `detail` only when it is truthy — Python
`if self.detail:` is false both for `None` and for the empty string. -/
def ImageUrl.to_dict (i : ImageUrl) : Json :=
  match i.detail with
  | some d =>
      if d.isEmpty then .obj [("url", .str i.url)]
      else .obj [("url", .str i.url), ("detail", .str d)]
  | none => .obj [("url", .str i.url)]

/-- `ImageUrl.from_dict`: `data["url"]` required; `data.get("detail")` yields
`None` both when the key is absent and when it is an explicit JSON null. -/
def ImageUrl.from_dict (data : Json) : Except PyError ImageUrl :=
  match data with
  | .obj fields =>
      match jsonLookup fields "url" with
      | some (.str u) =>
          match jsonLookup fields "detail" with
          | none => .ok ⟨u, none⟩
          | some .null => .ok ⟨u, none⟩
          | some (.str d) => .ok ⟨u, some d⟩
          | some _ => .error (.typeError "detail is not a string")
      | some _ => .error (.typeError "url is not a string")
      | none => .error (.keyError "url")
  | _ => .error (.typeError "data is not subscriptable")

/-- `ImageContent.to_dict`. -/
def ImageContent.to_dict (i : ImageContent) : Json :=
  .obj [("type", .str "image_url"), ("image_url", i.image_url.to_dict)]

/-- `ImageContent.from_dict`: reads `data["image_url"]` and decodes it. -/
def ImageContent.from_dict (data : Json) : Except PyError ImageContent :=
  match data with
  | .obj fields =>
      match jsonLookup fields "image_url" with
      | some inner => (ImageUrl.from_dict inner).map (fun u => ⟨u⟩)
      | none => .error (.keyError "image_url")
  | _ => .error (.typeError "data is not subscriptable")

/-- `to_dict` dispatched over the `ContentPart` union. -/
def ContentPart.to_dict : ContentPart → Json
  | .text t => t.to_dict
  | .image i => i.to_dict

/-- `content_part_from_dict`: dispatch on `data["type"]`; an unknown tag raises
`ValueError(f"Unknown content part type: {data['type']}")`. -/
def content_part_from_dict (data : Json) : Except PyError ContentPart :=
  match data with
  | .obj fields =>
      match jsonLookup fields "type" with
      | none => .error (.keyError "type")
      | some tag =>
          if tag.eqStr "text" then (TextContent.from_dict data).map .text
          else if tag.eqStr "image_url" then (ImageContent.from_dict data).map .image
          else .error (.valueError ("Unknown content part type: " ++ tag.pyStr))
  | _ => .error (.typeError "data is not subscriptable")

/-- The list comprehension `[content_part_from_dict(part) for part in data]`:
decodes in order, propagating the first exception. -/
def content_parts_from_list : List Json → Except PyError (List ContentPart)
  | [] => .ok []
  | j :: rest =>
      match content_part_from_dict j with
      | .error e => .error e
      | .ok p =>
          match content_parts_from_list rest with
          | .error e => .error e
          | .ok ps => .ok (p :: ps)

/-- `content_from_dict`: a wire string passes through; a list is decoded
element-wise in order.  (Python would fail dynamically on any other shape when
iterating or indexing it.) -/
def content_from_dict (data : Json) : Except PyError PromptContent :=
  match data with
  | .str s => .ok (.str s)
  | .arr elems => (content_parts_from_list elems).map .parts
  | _ => .error (.typeError "content is not a string or list of parts")

/-- `content_to_dict`: a string passes through; parts are encoded in order. -/
def content_to_dict : PromptContent → Json
  | .str s => .str s
  | .parts l => .arr (l.map ContentPart.to_dict)

-- ===========================================================================
-- Helper Functions  (client.py lines 105-157)
-- ===========================================================================

/-- `normalize_content`: a string is wrapped as a single `TextContent`; a parts
list is returned as-is. -/
def normalize_content : PromptContent → List ContentPart
  | .str s => [.text ⟨s⟩]
  | .parts l => l

/-- Python `sep.join(strs)`. -/
def pyJoin (sep : String) : List String → String
  | [] => ""
  | [s] => s
  | s :: rest => s ++ sep ++ pyJoin sep rest

/-- `get_text_content`: string content unchanged; otherwise the texts of the
parts satisfying `isinstance(part, TextContent) or part.type == "text"` (exactly
the `text` constructor) joined with a newline. -/
def get_text_content : PromptContent → String
  | .str s => s
  | .parts l =>
      pyJoin "\n" (l.filterMap (fun p =>
        match p with
        | .text t => some t.text
        | .image _ => none))

-- ===========================================================================
-- Prompt Types  (client.py lines 165-220)
-- ===========================================================================

/-- `PromptEnvelope`: `id`, `content`, `meta` (per the declared Python types
`id: str`, `meta: Dict[str, Any]`; `meta` keeps dict insertion order). -/
structure PromptEnvelope where
  id : String
  content : PromptContent
  meta : List (String × Json)

/-- `PromptEnvelope.from_dict`: `data["id"]` and `data["content"]` are required
(KeyError when absent, in that evaluation order); `meta` defaults to an empty
dict via `data.get("meta", {})`.  Shape checks on `id`/`meta` stand for the
dynamic type errors an ill-typed value would raise at use. -/
def PromptEnvelope.from_dict (data : Json) : Except PyError PromptEnvelope :=
  match data with
  | .obj fields =>
      match jsonLookup fields "id" with
      | none => .error (.keyError "id")
      | some idJ =>
          match jsonLookup fields "content" with
          | none => .error (.keyError "content")
          | some contentJ =>
              match content_from_dict contentJ with
              | .error e => .error e
              | .ok content =>
                  match idJ with
                  | .str i =>
                      match (jsonLookup fields "meta").getD (.obj []) with
                      | .obj metaFields => .ok ⟨i, content, metaFields⟩
                      | _ => .error (.typeError "meta is not a dict")
                  | _ => .error (.typeError "id is not a string")
  | _ => .error (.typeError "data is not subscriptable")

/-- `PromptInput`: content and metadata, no identity. -/
structure PromptInput where
  content : PromptContent
  meta : List (String × Json)

/-- `PromptInput.to_dict`: `{"content": content_to_dict(content), "meta": meta}`. -/
def PromptInput.to_dict (p : PromptInput) : Json :=
  .obj [("content", content_to_dict p.content), ("meta", .obj p.meta)]

-- ===========================================================================
-- PLP Client  (client.py lines 228-371)
-- ===========================================================================

/-- The string-keyed header dict.  `dictInsert` is `d[k] = v` / dict-literal
merge on one key: an existing binding (keys are unique, as in a Python dict) is
overwritten in place, a new one is appended, matching Python dict
insertion-order semantics. -/
def dictInsert : List (String × String) → String → String → List (String × String)
  | [], k, v => [(k, v)]
  | p :: rest, k, v => if p.1 = k then (k, v) :: rest else p :: dictInsert rest k v

/-- Lookup in a header dict (first binding wins; keys are unique). -/
def dictLookup : List (String × String) → String → Option String
  | [], _ => none
  | p :: rest, k => if p.1 = k then some p.2 else dictLookup rest k

/-- The dict literal `{"Content-Type": "application/json", **self.headers}`:
the default binding first, then the caller's headers merged in (overriding). -/
def baseHeaders (callerHeaders : List (String × String)) : List (String × String) :=
  callerHeaders.foldl (fun d p => dictInsert d p.1 p.2)
    [("Content-Type", "application/json")]

/-- The header construction of `_request`: the merged dict, then
`headers["Authorization"] = f"Bearer {api_key}"` when `self.api_key` is truthy
(a non-empty string). -/
def buildHeaders (callerHeaders : List (String × String)) (apiKey : Option String) :
    List (String × String) :=
  match apiKey with
  | some k =>
      if k.isEmpty then baseHeaders callerHeaders
      else dictInsert (baseHeaders callerHeaders) "Authorization" ("Bearer " ++ k)
  | none => baseHeaders callerHeaders

/-- One HTTP request as handed to the transport collaborator
(`session.request(method=..., url=base_url+path, json=...)`). -/
structure Request where
  method : String
  path : String
  body : Option Json

/-- What the transport collaborator produces for one request: an HTTP response
whose body either parses as JSON or raises `ValueError` inside `response.json()`
(carrying the parse message), or a `requests` timeout / transport exception. -/
inductive TransportResult where
  | success (status : Nat) (jsonBody : Except String Json)
  | timeout
  | networkError (msg : String)

/-- A transport collaborator: answers each request with a result. -/
def Transport : Type := Request → TransportResult

/-- The response-handling path of `PLPClient._request` (client.py lines 276-302):
a 204 short-circuits to `None` before the body is parsed; a body that fails to
parse raises `PLPError("Invalid JSON response: ...")`; a non-ok status
(`response.ok` is `status < 400`) raises
`PLPError(data.get("error", f"HTTP {status}"), status, data)` — on a non-dict
body that `data.get` is an uncaught `AttributeError`.  `timeoutSecs` is the
client's configured timeout, quoted in the timeout message. -/
def requestResult (timeoutSecs : Nat) (tr : TransportResult) : Except PyError (Option Json) :=
  match tr with
  | .timeout =>
      .error (.plpError (.str ("Request timeout after " ++ toString timeoutSecs ++ "s")) none none)
  | .networkError m => .error (.plpError (.str ("Network error: " ++ m)) none none)
  | .success status body =>
      if status = 204 then .ok none
      else
        match body with
        | .error m => .error (.plpError (.str ("Invalid JSON response: " ++ m)) none none)
        | .ok data =>
            if status < 400 then .ok (some data)
            else
              match data with
              | .obj fields =>
                  .error (.plpError
                    ((jsonLookup fields "error").getD (.str ("HTTP " ++ toString status)))
                    (some status) (some data))
              | _ => .error (.attributeError "object has no attribute get")

/-- The path built by `PLPClient.get`: the version segment is appended only when
`version` is truthy (non-`None` and non-empty). -/
def getPath (prompt_id : String) (version : Option String) : String :=
  match version with
  | some v =>
      if v.isEmpty then "/v1/prompts/" ++ prompt_id
      else "/v1/prompts/" ++ prompt_id ++ "/" ++ v
  | none => "/v1/prompts/" ++ prompt_id

/-- The request `PLPClient.get` issues. -/
def getRequest (prompt_id : String) (version : Option String) : Request :=
  ⟨"GET", getPath prompt_id version, none⟩

/-- The request `PLPClient.put` issues: the body is exactly `input.to_dict()`. -/
def putRequest (prompt_id : String) (input : PromptInput) : Request :=
  ⟨"PUT", "/v1/prompts/" ++ prompt_id, some input.to_dict⟩

/-- The request `PLPClient.delete` issues. -/
def deleteRequest (prompt_id : String) : Request :=
  ⟨"DELETE", "/v1/prompts/" ++ prompt_id, none⟩

/-- `PLPClient.get`: `_request("GET", path)` then `PromptEnvelope.from_dict` on
the returned data — note the decode runs outside the `try` of `_request`.  On a
204 the data is `None` and `from_dict(None)` is an uncaught `TypeError`. -/
def PLPClient.get (tp : Transport) (timeoutSecs : Nat) (prompt_id : String)
    (version : Option String) : Except PyError PromptEnvelope :=
  match requestResult timeoutSecs (tp (getRequest prompt_id version)) with
  | .error e => .error e
  | .ok none => .error (.typeError "data is not subscriptable")
  | .ok (some data) => PromptEnvelope.from_dict data

/-- `PLPClient.put`: `_request("PUT", path, json=input.to_dict())` then
`PromptEnvelope.from_dict`, again outside the `try`. -/
def PLPClient.put (tp : Transport) (timeoutSecs : Nat) (prompt_id : String)
    (input : PromptInput) : Except PyError PromptEnvelope :=
  match requestResult timeoutSecs (tp (putRequest prompt_id input)) with
  | .error e => .error e
  | .ok none => .error (.typeError "data is not subscriptable")
  | .ok (some data) => PromptEnvelope.from_dict data

/-- `PLPClient.delete`: `_request("DELETE", path)`, result discarded. -/
def PLPClient.delete (tp : Transport) (timeoutSecs : Nat) (prompt_id : String) :
    Except PyError Unit :=
  match requestResult timeoutSecs (tp (deleteRequest prompt_id)) with
  | .error e => .error e
  | .ok _ => .ok ()

-- ===========================================================================
-- Spec-side predicates used in theorem statements
-- ===========================================================================

/-- A detail level the spec calls valid: absent, or one of auto/low/high. -/
def detailValid : Option String → Bool
  | none => true
  | some d => d == "auto" || d == "low" || d == "high"

/-- A content part the spec calls valid. -/
def ContentPart.wireValid : ContentPart → Bool
  | .text _ => true
  | .image i => detailValid i.image_url.detail

/-- A `PromptContent` value the spec calls valid. -/
def PromptContent.wireValid : PromptContent → Bool
  | .str _ => true
  | .parts l => l.all ContentPart.wireValid

/-- `sub` occurs as a contiguous substring of `s`. -/
def strContains (s sub : String) : Prop :=
  ∃ pre post : List Char, s.data = pre ++ sub.data ++ post

end PLP

namespace PLP

-- ===========================================================================
-- Shared lemmas
-- ===========================================================================

/-- Encoding then decoding a single spec-valid content part is the identity. -/
lemma content_part_roundtrip (p : ContentPart) (h : p.wireValid = true) :
    content_part_from_dict p.to_dict = .ok p := by
  cases p with
  | text t => rfl
  | image i =>
      obtain ⟨⟨u, d⟩⟩ := i
      cases d with
      | none => rfl
      | some d =>
          simp [ContentPart.wireValid, detailValid] at h
          rcases h with (h | h) | h <;> subst h <;> rfl

/-- Element-wise round-trip for a list of spec-valid content parts. -/
lemma content_parts_roundtrip (l : List ContentPart)
    (h : l.all ContentPart.wireValid = true) :
    content_parts_from_list (l.map ContentPart.to_dict) = .ok l := by
  induction l with
  | nil => rfl
  | cons p rest ih =>
      rw [List.all_cons, Bool.and_eq_true] at h
      rw [List.map_cons, content_parts_from_list, content_part_roundtrip p h.1, ih h.2]

/-- Decode failures of `TextContent.from_dict` are interpreter exceptions, not
`PLPError`. -/
lemma text_from_dict_not_plp (j : Json) (e : PyError)
    (h : TextContent.from_dict j = .error e) : e.isPLP = false := by
  unfold TextContent.from_dict at h
  split at h <;> (try split at h) <;>
    first
      | exact Except.noConfusion h
      | (cases h; rfl)

/-- Decode failures of `ImageUrl.from_dict` are interpreter exceptions, not
`PLPError`. -/
lemma imageUrl_from_dict_not_plp (j : Json) (e : PyError)
    (h : ImageUrl.from_dict j = .error e) : e.isPLP = false := by
  unfold ImageUrl.from_dict at h
  split at h <;> (try split at h) <;> (try split at h) <;>
    first
      | exact Except.noConfusion h
      | (cases h; rfl)

/-- Decode failures of `ImageContent.from_dict` are interpreter exceptions, not
`PLPError`. -/
lemma imageContent_from_dict_not_plp (j : Json) (e : PyError)
    (h : ImageContent.from_dict j = .error e) : e.isPLP = false := by
  unfold ImageContent.from_dict at h
  split at h
  · split at h
    · rename_i inner _
      cases hu : ImageUrl.from_dict inner with
      | ok v => rw [hu] at h; exact Except.noConfusion h
      | error e1 =>
          rw [hu] at h
          simp only [Except.map] at h
          cases h
          exact imageUrl_from_dict_not_plp inner _ hu
    · cases h; rfl
  · cases h; rfl

/-- Decode failures of `content_part_from_dict` are interpreter exceptions, not
`PLPError`. -/
lemma content_part_from_dict_not_plp (j : Json) (e : PyError)
    (h : content_part_from_dict j = .error e) : e.isPLP = false := by
  unfold content_part_from_dict at h
  split at h
  · rename_i fields
    split at h
    · cases h; rfl
    · split at h
      · cases ht : TextContent.from_dict (Json.obj fields) with
        | ok v => rw [ht] at h; exact Except.noConfusion h
        | error e1 =>
            rw [ht] at h
            simp only [Except.map] at h
            cases h
            exact text_from_dict_not_plp (Json.obj fields) _ ht
      · split at h
        · cases hi : ImageContent.from_dict (Json.obj fields) with
          | ok v => rw [hi] at h; exact Except.noConfusion h
          | error e1 =>
              rw [hi] at h
              simp only [Except.map] at h
              cases h
              exact imageContent_from_dict_not_plp (Json.obj fields) _ hi
        · cases h; rfl
  · cases h; rfl

/-- Decode failures of the part-list comprehension are interpreter exceptions,
not `PLPError`. -/
lemma content_parts_from_list_not_plp (l : List Json) (e : PyError)
    (h : content_parts_from_list l = .error e) : e.isPLP = false := by
  induction l with
  | nil => exact Except.noConfusion h
  | cons j rest ih =>
      rw [content_parts_from_list] at h
      split at h
      · cases h; exact content_part_from_dict_not_plp j _ (by assumption)
      · split at h
        · cases h; exact ih (by assumption)
        · exact Except.noConfusion h

/-- Decode failures of `content_from_dict` are interpreter exceptions, not
`PLPError`. -/
lemma content_from_dict_not_plp (j : Json) (e : PyError)
    (h : content_from_dict j = .error e) : e.isPLP = false := by
  unfold content_from_dict at h
  split at h
  · exact Except.noConfusion h
  · rename_i elems
    cases hl : content_parts_from_list elems with
    | ok v => rw [hl] at h; exact Except.noConfusion h
    | error e1 =>
        rw [hl] at h
        simp only [Except.map] at h
        cases h
        exact content_parts_from_list_not_plp elems _ hl
  · cases h; rfl

/-- Decode failures of `PromptEnvelope.from_dict` (missing `id`/`content`,
content-shape violations, ill-typed fields) are interpreter exceptions, not
`PLPError`. -/
lemma envelope_from_dict_not_plp (j : Json) (e : PyError)
    (h : PromptEnvelope.from_dict j = .error e) : e.isPLP = false := by
  unfold PromptEnvelope.from_dict at h
  split at h
  · split at h
    · cases h; rfl
    · split at h
      · cases h; rfl
      · split at h
        · cases h; exact content_from_dict_not_plp _ _ (by assumption)
        · split at h
          · split at h
            · exact Except.noConfusion h
            · cases h; rfl
          · cases h; rfl
  · cases h; rfl

-- ===========================================================================
-- C1
-- ===========================================================================

/-- C1: for every valid `PromptContent` value (a string, or parts whose optional
detail is absent or one of auto/low/high), decoding the encoding returns the
value with order preserved: `content_from_dict (content_to_dict x) = ok x`; and
an `Image` part with no detail encodes to JSON without a `detail` key and
decodes back with detail absent. -/
theorem content_roundtrip_valid (x : PromptContent) (h : x.wireValid = true) :
    content_from_dict (content_to_dict x) = .ok x ∧
    ∀ u : String,
      ImageUrl.to_dict ⟨u, none⟩ = .obj [("url", .str u)] ∧
      ImageUrl.from_dict (ImageUrl.to_dict ⟨u, none⟩) = .ok ⟨u, none⟩ := by
  refine ⟨?_, fun u => ⟨rfl, rfl⟩⟩
  cases x with
  | str s => rfl
  | parts l =>
      rw [PromptContent.wireValid] at h
      rw [content_to_dict, content_from_dict, content_parts_roundtrip l h]
      rfl

/-- Witness for C1 at a concrete valid content value. -/
theorem content_roundtrip_valid_witness :
    PromptContent.wireValid
      (.parts [.text ⟨"hi"⟩, .image ⟨⟨"https://x/img.png", none⟩⟩,
               .image ⟨⟨"https://x/img2.png", some "high"⟩⟩]) = true ∧
    content_from_dict (content_to_dict
      (.parts [.text ⟨"hi"⟩, .image ⟨⟨"https://x/img.png", none⟩⟩,
               .image ⟨⟨"https://x/img2.png", some "high"⟩⟩])) =
      .ok (.parts [.text ⟨"hi"⟩, .image ⟨⟨"https://x/img.png", none⟩⟩,
                   .image ⟨⟨"https://x/img2.png", some "high"⟩⟩]) :=
  ⟨rfl,
    (content_roundtrip_valid
      (.parts [.text ⟨"hi"⟩, .image ⟨⟨"https://x/img.png", none⟩⟩,
               .image ⟨⟨"https://x/img2.png", some "high"⟩⟩]) rfl).1⟩

-- ===========================================================================
-- C3
-- ===========================================================================

/-- C3: decoding a JSON object whose `type` tag is neither `"text"` nor
`"image_url"` fails with a `ValueError` carrying the offending tag value, and
never produces a content part. -/
theorem unknown_tag_value_error (fields : List (String × Json)) (tag : Json)
    (htag : jsonLookup fields "type" = some tag)
    (ht : tag.eqStr "text" = false) (hi : tag.eqStr "image_url" = false) :
    content_part_from_dict (.obj fields) =
      .error (.valueError ("Unknown content part type: " ++ tag.pyStr)) ∧
    ∀ p : ContentPart, content_part_from_dict (.obj fields) ≠ .ok p := by
  have hmain : content_part_from_dict (.obj fields) =
      .error (.valueError ("Unknown content part type: " ++ tag.pyStr)) := by
    rw [content_part_from_dict, htag]
    simp [ht, hi]
  exact ⟨hmain, fun p hp => by rw [hmain] at hp; exact Except.noConfusion hp⟩

/-- Witness for C3 at the tag `"bogus"`. -/
theorem unknown_tag_value_error_witness :
    content_part_from_dict (.obj [("type", .str "bogus")]) =
      .error (.valueError "Unknown content part type: bogus") :=
  (unknown_tag_value_error [("type", .str "bogus")] (.str "bogus") rfl rfl rfl).1

-- ===========================================================================
-- C2
-- ===========================================================================

/-- C2 counterexample: a 200 response whose body has a content part with an
unknown tag makes `get` raise a raw `ValueError`, not the unified `PLPError` —
the decode step runs outside the error-converting `try` of `_request`. -/
theorem decode_error_escapes_get_example :
    PLPClient.get
      (fun _ => .success 200 (.ok (.obj
        [("id", .str "x"),
         ("content", .arr [.obj [("type", .str "bogus")]]),
         ("meta", .obj [])]))) 10 "x" none
      = .error (.valueError "Unknown content part type: bogus") ∧
    PyError.isPLP (.valueError "Unknown content part type: bogus") = false :=
  ⟨rfl, rfl⟩

/-- C2 (amended): transport failures, JSON-parse failures and non-success
statuses are converted to `PLPError` inside `_request`, but shape violations in
the decoded body (unknown tag, missing required field) raise raw interpreter
exceptions (`ValueError`/`KeyError`/`TypeError`, never `PLPError`) from `get`
and `put`. -/
theorem decode_errors_escape_raw (tp : Transport) (t : Nat) (id : String)
    (v : Option String) (input : PromptInput) (j : Json) (e : PyError)
    (hdec : PromptEnvelope.from_dict j = .error e) :
    e.isPLP = false ∧
    (requestResult t (tp (getRequest id v)) = .ok (some j) →
      PLPClient.get tp t id v = .error e) ∧
    (requestResult t (tp (putRequest id input)) = .ok (some j) →
      PLPClient.put tp t id input = .error e) := by
  refine ⟨envelope_from_dict_not_plp j e hdec, fun hg => ?_, fun hp => ?_⟩
  · unfold PLPClient.get
    rw [hg]
    exact hdec
  · unfold PLPClient.put
    rw [hp]
    exact hdec

/-- Witness for C2 (amended): a body missing `id` makes `get` raise `KeyError`. -/
theorem decode_errors_escape_raw_witness :
    PromptEnvelope.from_dict (.obj [("content", .str "hi")]) = .error (.keyError "id") ∧
    PyError.isPLP (.keyError "id") = false ∧
    PLPClient.get (fun _ => .success 200 (.ok (.obj [("content", .str "hi")]))) 10 "p" none
      = .error (.keyError "id") := by
  have h := decode_errors_escape_raw
    (fun _ => .success 200 (.ok (.obj [("content", .str "hi")]))) 10 "p" none
    ⟨.str "x", []⟩ (.obj [("content", .str "hi")]) (.keyError "id") rfl
  exact ⟨rfl, h.1, h.2.1 rfl⟩

-- ===========================================================================
-- C4
-- ===========================================================================

/-- C4 counterexample: a 404 whose parseable JSON body is an array (not an
object) makes the operation raise a raw `AttributeError` from `data.get`, not
the unified `PLPError`. -/
theorem http_error_nonobject_body_not_unified :
    PLPClient.delete (fun _ => .success 404 (.ok (.arr []))) 10 "x"
      = .error (.attributeError "object has no attribute get") ∧
    PyError.isPLP (.attributeError "object has no attribute get") = false :=
  ⟨rfl, rfl⟩

/-- C4 (amended): for each operation, a non-success status (≥ 400, hence not
204) with a parseable JSON **object** body raises `PLPError` with `statusCode`
the HTTP status, `response` the parsed body, and message the body's `error`
field when present or `"HTTP {status}"` when absent. -/
theorem http_error_object_body_unified (tp : Transport) (t : Nat) (id : String)
    (v : Option String) (input : PromptInput) (status : Nat)
    (fields : List (String × Json)) (hs : 400 ≤ status) :
    (tp (getRequest id v) = .success status (.ok (.obj fields)) →
      PLPClient.get tp t id v = .error (.plpError
        ((jsonLookup fields "error").getD (.str ("HTTP " ++ toString status)))
        (some status) (some (.obj fields)))) ∧
    (tp (putRequest id input) = .success status (.ok (.obj fields)) →
      PLPClient.put tp t id input = .error (.plpError
        ((jsonLookup fields "error").getD (.str ("HTTP " ++ toString status)))
        (some status) (some (.obj fields)))) ∧
    (tp (deleteRequest id) = .success status (.ok (.obj fields)) →
      PLPClient.delete tp t id = .error (.plpError
        ((jsonLookup fields "error").getD (.str ("HTTP " ++ toString status)))
        (some status) (some (.obj fields)))) := by
  have h204 : ¬(status = 204) := by omega
  have hlt : ¬(status < 400) := by omega
  have key : requestResult t (.success status (.ok (.obj fields))) = .error (.plpError
      ((jsonLookup fields "error").getD (.str ("HTTP " ++ toString status)))
      (some status) (some (.obj fields))) := by
    unfold requestResult
    simp [h204, hlt]
  refine ⟨fun hg => ?_, fun hp => ?_, fun hd => ?_⟩
  · unfold PLPClient.get
    rw [hg, key]
  · unfold PLPClient.put
    rw [hp, key]
  · unfold PLPClient.delete
    rw [hd, key]

/-- Witness for C4 (amended) at a concrete 404 with an `error` field. -/
theorem http_error_object_body_unified_witness :
    PLPClient.get (fun _ => .success 404 (.ok (.obj [("error", .str "Prompt not found")])))
      10 "missing/prompt" none
      = .error (.plpError (.str "Prompt not found") (some 404)
          (some (.obj [("error", .str "Prompt not found")]))) :=
  (http_error_object_body_unified
    (fun _ => .success 404 (.ok (.obj [("error", .str "Prompt not found")])))
    10 "missing/prompt" none ⟨.str "x", []⟩ 404 [("error", .str "Prompt not found")]
    (by omega)).1 rfl

-- ===========================================================================
-- C5
-- ===========================================================================

/-- C5: `delete` on a 204 response returns unit with no error (the body is never
parsed); on a 404 with body `{"error": "Prompt not found"}` it raises `PLPError`
with `statusCode` 404 whose message contains "Prompt not found". -/
theorem delete_204_ok_and_404_not_found (tp : Transport) (t : Nat) (id : String) :
    (∀ b : Except String Json, tp (deleteRequest id) = .success 204 b →
      PLPClient.delete tp t id = .ok ()) ∧
    (tp (deleteRequest id) = .success 404 (.ok (.obj [("error", .str "Prompt not found")])) →
      PLPClient.delete tp t id = .error (.plpError (.str "Prompt not found") (some 404)
        (some (.obj [("error", .str "Prompt not found")]))) ∧
      strContains "Prompt not found" "Prompt not found") := by
  constructor
  · intro b h
    unfold PLPClient.delete
    rw [h]
    rfl
  · intro h
    unfold PLPClient.delete
    rw [h]
    exact ⟨rfl, [], [], by simp⟩

/-- Witness for C5 on concrete 204 and 404 transports. -/
theorem delete_204_ok_and_404_not_found_witness :
    PLPClient.delete (fun _ => .success 204 (.error "204 has no body")) 10 "x" = .ok () ∧
    PLPClient.delete (fun _ => .success 404 (.ok (.obj [("error", .str "Prompt not found")])))
      10 "x"
      = .error (.plpError (.str "Prompt not found") (some 404)
          (some (.obj [("error", .str "Prompt not found")]))) ∧
    strContains "Prompt not found" "Prompt not found" :=
  ⟨(delete_204_ok_and_404_not_found (fun _ => .success 204 (.error "204 has no body")) 10 "x").1
      (.error "204 has no body") rfl,
   (delete_204_ok_and_404_not_found
      (fun _ => .success 404 (.ok (.obj [("error", .str "Prompt not found")]))) 10 "x").2 rfl⟩

-- ===========================================================================
-- C6
-- ===========================================================================

/-- C6 counterexample: `get("a", "")` supplies a version but issues
`/v1/prompts/a` — the empty version is falsy, so the segment is dropped and the
path is not `/v1/prompts/a/`. -/
theorem get_request_empty_version_drops_segment :
    (getRequest "a" (some "")).path = "/v1/prompts/a" ∧
    ("/v1/prompts/a" : String) ≠ "/v1/prompts/a/" :=
  ⟨rfl, by decide⟩

/-- C6 (amended): `get(id)` issues GET on `/v1/prompts/{id}`; `get(id, version)`
with a non-empty version issues GET on `/v1/prompts/{id}/{version}`; an
empty-string version is falsy and issues `/v1/prompts/{id}`. -/
theorem get_request_paths (id : String) :
    getRequest id none = ⟨"GET", "/v1/prompts/" ++ id, none⟩ ∧
    (∀ v : String, v.isEmpty = false →
      getRequest id (some v) = ⟨"GET", "/v1/prompts/" ++ id ++ "/" ++ v, none⟩) ∧
    getRequest id (some "") = ⟨"GET", "/v1/prompts/" ++ id, none⟩ := by
  refine ⟨rfl, fun v hv => ?_, rfl⟩
  unfold getRequest getPath
  simp [hv]

/-- Witness for C6 (amended) at the spec's example inputs. -/
theorem get_request_paths_witness :
    getRequest "a/b" none = ⟨"GET", "/v1/prompts/a/b", none⟩ ∧
    getRequest "a/b" (some "1.0.0") = ⟨"GET", "/v1/prompts/a/b/1.0.0", none⟩ :=
  ⟨(get_request_paths "a/b").1, (get_request_paths "a/b").2.1 "1.0.0" rfl⟩

-- ===========================================================================
-- C9
-- ===========================================================================

/-- C9: encoding an `Image` part whose detail is the empty string omits the
`detail` key (the encoder tests truthiness), so decoding that encoding yields
detail absent: the round trip maps detail `""` to `none`, not to the input. -/
theorem empty_detail_encodes_absent (url : String) :
    ImageUrl.to_dict ⟨url, some ""⟩ = .obj [("url", .str url)] ∧
    ImageUrl.from_dict (ImageUrl.to_dict ⟨url, some ""⟩) = .ok ⟨url, none⟩ ∧
    (⟨url, none⟩ : ImageUrl) ≠ ⟨url, some ""⟩ := by
  refine ⟨rfl, rfl, fun h => ?_⟩
  exact Option.noConfusion (congrArg ImageUrl.detail h)

-- ===========================================================================
-- C7
-- ===========================================================================

/-- C7: `PromptInput.to_dict` is exactly `{content, meta}` with no `id` key;
`put` sends exactly that object as the request body; and given a success
response with an envelope body, `put` returns an envelope whose `id`, `content`
and `meta` match the response fields. -/
theorem put_encoding_and_response (input : PromptInput) :
    input.to_dict = .obj [("content", content_to_dict input.content), ("meta", .obj input.meta)] ∧
    input.to_dict.objLookup "id" = none ∧
    (∀ id : String, (putRequest id input).body = some input.to_dict) ∧
    (∀ (tp : Transport) (t : Nat) (id i : String) (cj : Json)
        (m : List (String × Json)) (pc : PromptContent) (status : Nat),
      tp (putRequest id input) = .success status
        (.ok (.obj [("id", .str i), ("content", cj), ("meta", .obj m)])) →
      status < 400 → status ≠ 204 →
      content_from_dict cj = .ok pc →
      PLPClient.put tp t id input = .ok ⟨i, pc, m⟩) := by
  refine ⟨rfl, rfl, fun id => rfl, ?_⟩
  intro tp t id i cj m pc status htp hlt h204 hc
  unfold PLPClient.put
  rw [htp]
  have key : requestResult t (.success status
      (.ok (.obj [("id", .str i), ("content", cj), ("meta", .obj m)]))) =
      .ok (some (.obj [("id", .str i), ("content", cj), ("meta", .obj m)])) := by
    unfold requestResult
    simp [h204, hlt]
  rw [key]
  unfold PromptEnvelope.from_dict
  simp [jsonLookup, hc]

/-- Witness for C7 at the spec's example: `put("x", PromptInput("hello", v=1))`
with a 201 envelope response. -/
theorem put_encoding_and_response_witness :
    PromptInput.to_dict ⟨.str "hello", [("v", .str "1")]⟩
      = .obj [("content", .str "hello"), ("meta", .obj [("v", .str "1")])] ∧
    (putRequest "x" ⟨.str "hello", [("v", .str "1")]⟩).body
      = some (.obj [("content", .str "hello"), ("meta", .obj [("v", .str "1")])]) ∧
    PLPClient.put (fun _ => .success 201 (.ok (.obj
        [("id", .str "x"), ("content", .str "hello"), ("meta", .obj [("v", .str "1")])])))
      10 "x" ⟨.str "hello", [("v", .str "1")]⟩
      = .ok ⟨"x", .str "hello", [("v", .str "1")]⟩ :=
  ⟨rfl, rfl,
    (put_encoding_and_response ⟨.str "hello", [("v", .str "1")]⟩).2.2.2
      (fun _ => .success 201 (.ok (.obj
        [("id", .str "x"), ("content", .str "hello"), ("meta", .obj [("v", .str "1")])])))
      10 "x" "x" (.str "hello") [("v", .str "1")] (.str "hello") 201
      rfl (by omega) (by omega) rfl⟩

-- ===========================================================================
-- C8
-- ===========================================================================

/-- Inserting a key then looking it up yields the inserted value. -/
lemma dictLookup_insert_self (d : List (String × String)) (k v : String) :
    dictLookup (dictInsert d k v) k = some v := by
  induction d with
  | nil => simp [dictInsert, dictLookup]
  | cons p rest ih =>
      by_cases h : p.1 = k
      · simp [dictInsert, dictLookup, h]
      · simp [dictInsert, dictLookup, h, ih]

/-- Inserting one key leaves lookups of other keys unchanged. -/
lemma dictLookup_insert_ne (d : List (String × String)) (k v k' : String)
    (h : k' ≠ k) :
    dictLookup (dictInsert d k v) k' = dictLookup d k' := by
  induction d with
  | nil => simp [dictInsert, dictLookup, Ne.symm h]
  | cons p rest ih =>
      by_cases hp : p.1 = k
      · subst hp
        simp [dictInsert, dictLookup, Ne.symm h]
      · simp only [dictInsert, hp, if_false, dictLookup]
        by_cases hk : p.1 = k'
        · simp [hk]
        · simp [hk, ih]

/-- A `none` lookup means no binding has the key. -/
lemma forall_ne_of_dictLookup_none (d : List (String × String)) (k : String)
    (h : dictLookup d k = none) : ∀ p ∈ d, p.1 ≠ k := by
  induction d with
  | nil => intro p hp; cases hp
  | cons p rest ih =>
      intro q hq
      by_cases hpk : p.1 = k
      · rw [dictLookup, if_pos hpk] at h
        exact Option.noConfusion h
      · rw [dictLookup, if_neg hpk] at h
        rcases List.mem_cons.mp hq with rfl | hq2
        · exact hpk
        · exact ih h q hq2

/-- Folding inserts whose keys all differ from `k` preserves the lookup of `k`. -/
lemma dictLookup_foldl_insert_of_absent (ps init : List (String × String)) (k : String)
    (h : ∀ p ∈ ps, p.1 ≠ k) :
    dictLookup (ps.foldl (fun d p => dictInsert d p.1 p.2) init) k = dictLookup init k := by
  induction ps generalizing init with
  | nil => rfl
  | cons p rest ih =>
      rw [List.foldl_cons, ih _ (fun q hq => h q (List.mem_cons_of_mem p hq))]
      exact dictLookup_insert_ne init p.1 p.2 k (Ne.symm (h p (List.mem_cons_self p rest)))

/-- C8 counterexample: a caller-supplied `Content-Type` header overrides the
default, so that request does not carry `application/json` — the dict literal
spreads `self.headers` after the default. -/
theorem content_type_overridden_by_caller :
    dictLookup (buildHeaders [("Content-Type", "text/plain")] none) "Content-Type"
      = some "text/plain" ∧
    (some "text/plain" : Option String) ≠ some "application/json" :=
  ⟨rfl, by decide⟩

/-- C8 (amended): `Content-Type: application/json` is present whenever the
caller headers do not override it; when a non-empty API key is configured,
`Authorization: Bearer {key}` is present on every request and wins over any
caller-supplied `Authorization` header (it is applied last). -/
theorem headers_default_and_auth (callerHeaders : List (String × String))
    (apiKey : Option String) :
    (dictLookup callerHeaders "Content-Type" = none →
      dictLookup (buildHeaders callerHeaders apiKey) "Content-Type"
        = some "application/json") ∧
    (∀ k : String, apiKey = some k → k.isEmpty = false →
      dictLookup (buildHeaders callerHeaders apiKey) "Authorization"
        = some ("Bearer " ++ k)) := by
  constructor
  · intro h
    have base : dictLookup (baseHeaders callerHeaders) "Content-Type"
        = some "application/json" := by
      rw [baseHeaders,
        dictLookup_foldl_insert_of_absent _ _ _ (forall_ne_of_dictLookup_none _ _ h)]
      rfl
    cases apiKey with
    | none => exact base
    | some k =>
        by_cases hk : k.isEmpty
        · simpa [buildHeaders, hk] using base
        · rw [buildHeaders, if_neg (by simp [hk]),
            dictLookup_insert_ne _ _ _ _ (by decide : "Content-Type" ≠ "Authorization")]
          exact base
  · intro k hk hne
    subst hk
    rw [buildHeaders, if_neg (by simp [hne])]
    exact dictLookup_insert_self _ _ _

/-- Witness for C8 (amended): default Content-Type survives unrelated caller
headers, and the key header overwrites a caller-supplied Authorization. -/
theorem headers_default_and_auth_witness :
    dictLookup (buildHeaders [("Authorization", "stale"), ("X-Extra", "1")]
      (some "test-key-123")) "Content-Type" = some "application/json" ∧
    dictLookup (buildHeaders [("Authorization", "stale"), ("X-Extra", "1")]
      (some "test-key-123")) "Authorization" = some "Bearer test-key-123" :=
  ⟨(headers_default_and_auth [("Authorization", "stale"), ("X-Extra", "1")]
      (some "test-key-123")).1 rfl,
   (headers_default_and_auth [("Authorization", "stale"), ("X-Extra", "1")]
      (some "test-key-123")).2 "test-key-123" rfl rfl⟩

-- ===========================================================================
-- C10
-- ===========================================================================

/-- C10: text extraction is invariant under normalization:
`get_text_content (normalize_content c) = get_text_content c` for every
`PromptContent` value. -/
theorem get_text_content_normalize_invariant (c : PromptContent) :
    get_text_content (.parts (normalize_content c)) = get_text_content c := by
  cases c <;> rfl

end PLP
